import Mathlib

/-
Verification of the rusty-chip8 CHIP-8 emulator core
(src/chip8_lib: input.rs, display.rs, cpu.rs).

The Rust source is shallowly embedded: machine integers become Nat (with
explicit truncation where the Rust type truncates), fallible operations
return Option, and operations that can abort a debug build of the program
(arithmetic overflow of a checked operation, a shift amount that is at
least the bit width, an out-of-bounds slice or array index, a failed
assertion) are modelled as an explicit result, named panicked below.
The random byte drawn by opcode Cxkk is passed in as an explicit oracle
argument, making the step function deterministic.
-/

namespace Chip8

/-! ## Input controller (src/chip8_lib/input.rs) -/

/-- InputController: a 16-bit key-state bitmap, bit k set means key k
is pressed, as in input.rs. -/
structure InputController where
  key_state : Nat
deriving DecidableEq

/-- key_pressed from input.rs: (key_state and (1 shifted left by key)) > 0.
The shift is on a 16-bit value, so a key of 16 or more aborts a debug
build (shift-amount overflow); that abort is the none result. -/
def InputController.key_pressed (ict : InputController) (key : Nat) : Option Bool :=
  if key ≥ 16 then none
  else some (decide ((ict.key_state &&& (1 <<< key)) > 0))

/-- press_key from input.rs: key_state = key_state OR (1 shifted left by key). -/
def InputController.press_key (ict : InputController) (key : Nat) : Option InputController :=
  if key ≥ 16 then none
  else some ⟨ict.key_state ||| (1 <<< key)⟩

/-- unpress_key from input.rs: key_state = key_state XOR (1 shifted left by key).
Note the source uses XOR, not AND-NOT. -/
def InputController.unpress_key (ict : InputController) (key : Nat) : Option InputController :=
  if key ≥ 16 then none
  else some ⟨ict.key_state ^^^ (1 <<< key)⟩

/-! ## Display controller (src/chip8_lib/display.rs) -/

def SCREEN_WIDTH : Nat := 64
def SCREEN_HEIGHT : Nat := 32
def NUM_COLS : Nat := SCREEN_WIDTH / 8
def NUM_ROWS : Nat := SCREEN_HEIGHT / 8
/-- PIXEL_COUNT from display.rs: NUM_COLS * NUM_ROWS, the length of the
frame buffer array. -/
def PIXEL_COUNT : Nat := NUM_COLS * NUM_ROWS

/-- The frame buffer: an array of PIXEL_COUNT bytes in the source,
modelled as a list of Nat. -/
structure DisplayController where
  frame_buffer : List Nat
deriving DecidableEq

/-- Default::default for DisplayController: an all-zero buffer of
NUM_COLS * NUM_ROWS bytes. -/
def DisplayController.default : DisplayController :=
  ⟨List.replicate (NUM_COLS * NUM_ROWS) 0⟩

inductive Direction where
  | Left
  | Right

/-- get_idx from display.rs: (y * NUM_COLS + x) / 8. -/
def get_idx (x y : Nat) : Nat := (y * NUM_COLS + x) / 8

/-- xor_side_from_offset from display.rs. Shift results are truncated to
8 bits as on u8. Callers only pass offsets in 1..=7, so the shift amounts
8 - offset and offset stay below 8. The final addition adds disjoint bit
ranges and cannot overflow. -/
def xor_side_from_offset (byte1 byte2 offset : Nat) (side : Direction) : Nat :=
  let save_mask : Nat :=
    match side with
    | .Left => 0xFF >>> offset
    | .Right => (0xFF <<< (8 - offset)) % 256
  let ret : Nat :=
    match side with
    | .Left => byte1 ^^^ ((byte2 <<< (8 - offset)) % 256)
    | .Right => byte1 ^^^ (byte2 >>> offset)
  let save_bits := byte1 &&& save_mask
  (ret &&& (save_mask ^^^ 0xFF)) + save_bits

/-- bit_unset from display.rs: true when some bit set in byte1 is clear
in byte2. -/
def bit_unset (byte1 byte2 : Nat) : Bool :=
  (List.range 8).any fun j =>
    ((1 <<< j) &&& byte1 != 0) && ((1 <<< j) &&& byte2 == 0)

/-- The loop body of clear_screen: Rust iterates over a copy of the
frame buffer values and, for each value v, writes 0 at index v of the
current buffer; an index of at least the buffer length aborts. -/
def clearLoop : List Nat → List Nat → Option (List Nat)
  | fb, [] => some fb
  | fb, v :: rest =>
    if v < fb.length then clearLoop (fb.set v 0) rest else none

/-- clear_screen from display.rs: for i in self.frame_buffer,
frame_buffer[i as usize] = 0. The loop indexes by the buffer VALUES. -/
def DisplayController.clear_screen (dct : DisplayController) : Option DisplayController :=
  (clearLoop dct.frame_buffer dct.frame_buffer).map (⟨·⟩)

/-- The byte-aligned branch of draw: XOR each sprite byte into the row
byte at get_idx, accumulating the collision flag. An out-of-range index
aborts (none). -/
def drawRowsEven (start_x start_y : Nat) :
    List Nat → Nat → List Nat → Bool → Option (List Nat × Bool)
  | fb, _, [], col => some (fb, col)
  | fb, i, s :: rest, col =>
    let y := (start_y + i) % SCREEN_HEIGHT
    let idx := get_idx start_x y
    match fb.get? idx with
    | none => none
    | some orig =>
      let nb := orig ^^^ s
      drawRowsEven start_x start_y (fb.set idx nb) (i + 1) rest
        (col || bit_unset orig nb)

/-- One of the two loops of the unaligned branch of draw: for each sprite
byte, XOR one side of it into the row byte at get_idx x_pos y using
xor_side_from_offset, accumulating the collision flag. -/
def drawRowsSide (side : Direction) (x_pos start_y x_offset : Nat) :
    List Nat → Nat → List Nat → Bool → Option (List Nat × Bool)
  | fb, _, [], col => some (fb, col)
  | fb, i, s :: rest, col =>
    let y := (start_y + i) % SCREEN_HEIGHT
    let idx := get_idx x_pos y
    match fb.get? idx with
    | none => none
    | some orig =>
      let nb := xor_side_from_offset orig s x_offset side
      drawRowsSide side x_pos start_y x_offset (fb.set idx nb) (i + 1) rest
        (col || bit_unset orig nb)

/-- draw from display.rs. The leading assert (start_x < SCREEN_WIDTH and
start_y < SCREEN_HEIGHT) aborts when violated; when start_x is not a
multiple of 8 the sprite is blitted in two passes (right side into the
byte of start_x, then left side into the byte of start_x + 8 - offset),
otherwise in one pass. Returns the updated buffer and the Vf value. -/
def DisplayController.draw (dct : DisplayController) (start_x start_y : Nat)
    (sprite : List Nat) : Option (DisplayController × Nat) :=
  if start_x < SCREEN_WIDTH ∧ start_y < SCREEN_HEIGHT then
    let x_offset := start_x % 8
    if x_offset ≠ 0 then
      match drawRowsSide .Right start_x start_y x_offset dct.frame_buffer 0 sprite false with
      | none => none
      | some (fb1, col1) =>
        match drawRowsSide .Left (start_x + (8 - x_offset)) start_y x_offset fb1 0 sprite col1 with
        | none => none
        | some (fb2, col2) => some (⟨fb2⟩, if col2 then 1 else 0)
    else
      match drawRowsEven start_x start_y dct.frame_buffer 0 sprite false with
      | none => none
      | some (fb, col) => some (⟨fb⟩, if col then 1 else 0)
  else none

/-! ## CPU (src/chip8_lib/cpu.rs) -/

def MEMORY_SIZE : Nat := 4096
def REGISTER_COUNT : Nat := 16
def STACK_SIZE : Nat := 16
def FONT_START_ADDR : Nat := 0x50
def PROGRAM_ENTRY_POINT : Nat := 0x200
def TIMER_TICK : Int := 1000000000 / 60

/-- The built-in font, FONT from cpu.rs: 16 glyphs of 5 bytes each. -/
def FONT : List Nat :=
  [0xF0, 0x90, 0x90, 0x90, 0xF0,
   0x20, 0x60, 0x20, 0x20, 0x70,
   0xF0, 0x10, 0xF0, 0x80, 0xF0,
   0xF0, 0x10, 0xF0, 0x10, 0xF0,
   0x90, 0x90, 0xF0, 0x10, 0x10,
   0xF0, 0x80, 0xF0, 0x10, 0xF0,
   0xF0, 0x80, 0xF0, 0x90, 0xF0,
   0xF0, 0x10, 0x20, 0x40, 0x40,
   0xF0, 0x90, 0xF0, 0x90, 0xF0,
   0xF0, 0x90, 0xF0, 0x10, 0xF0,
   0xF0, 0x90, 0xF0, 0x90, 0x90,
   0xE0, 0x90, 0xE0, 0x90, 0xE0,
   0xF0, 0x80, 0x80, 0x80, 0xF0,
   0xE0, 0x90, 0x90, 0x90, 0xE0,
   0xF0, 0x80, 0xF0, 0x80, 0xF0,
   0xF0, 0x80, 0xF0, 0x80, 0x80]

/-- CpuError from cpu.rs, all five variants. -/
inductive CpuError where
  | UnknownOpcode
  | EmptyStack
  | StackOverflow
  | MemoryOutOfBounds
  | InvalidRegister
deriving DecidableEq

/-- The Cpu struct from cpu.rs. Registers and memory are byte arrays in
the source, modelled as total functions from index to value (the Rust
type system keeps every stored value below 256 and every register index
below 16, so those array accesses cannot abort); the stack (a Vec with
push and pop at the end) is a list whose head is the top. -/
structure Cpu where
  pc : Nat
  sp : Int
  dt : Nat
  dt_delta : Int
  st : Nat
  st_delta : Int
  i : Nat
  reg : Nat → Nat
  mem : Nat → Nat
  stk : List Nat
  dct : DisplayController
  ict : InputController
  paused : Bool
  blocking : Bool
  reg_to_write : Option Nat

/-- Result of running one instruction: the successful next state, a typed
CpuError together with the state at the moment the error is returned, or
a debug-build abort of the process. -/
inductive ExecResult where
  | ok : Cpu → ExecResult
  | err : CpuError → Cpu → ExecResult
  | panicked : ExecResult

/-- Pointwise function update used for register and memory writes. -/
def updFn (f : Nat → Nat) (a v : Nat) : Nat → Nat :=
  fun b => if b = a then v else f b

/-- Indexing into the 4096-byte memory array; an index past the end
aborts (none). -/
def Cpu.memRead (c : Cpu) (a : Nat) : Option Nat :=
  if a < MEMORY_SIZE then some (c.mem a) else none

/-- Cpu::default together with load_font: everything zeroed, timer deltas
at TIMER_TICK, the font copied to memory starting at FONT_START_ADDR,
and pc left at 0. -/
def initCpu : Cpu where
  pc := 0
  sp := 0
  dt := 0
  dt_delta := TIMER_TICK
  st := 0
  st_delta := TIMER_TICK
  i := 0
  reg := fun _ => 0
  mem := fun a =>
    if FONT_START_ADDR ≤ a ∧ a < FONT_START_ADDR + 80 then FONT.getD (a - FONT_START_ADDR) 0
    else 0
  stk := []
  dct := DisplayController.default
  ict := ⟨0⟩
  paused := false
  blocking := false
  reg_to_write := none

/-- load_program from cpu.rs, with the file read abstracted to the list
of bytes it produced: a zeroed 3584-byte buffer receives at most
MEMORY_SIZE - PROGRAM_ENTRY_POINT bytes of the program and the whole
buffer is then copied over memory from PROGRAM_ENTRY_POINT on. -/
def Cpu.load_program (c : Cpu) (prog : List Nat) : Cpu :=
  { c with mem := fun a =>
      if PROGRAM_ENTRY_POINT ≤ a ∧ a < MEMORY_SIZE then
        (prog.take (MEMORY_SIZE - PROGRAM_ENTRY_POINT)).getD (a - PROGRAM_ENTRY_POINT) 0
      else c.mem a }

/-- increment_pc from cpu.rs: pc += 2 (a checked u16 add), then error
MemoryOutOfBounds when the new pc is at least MEMORY_SIZE. Note the
error is returned with pc already advanced. -/
def Cpu.increment_pc (c : Cpu) : ExecResult :=
  if c.pc + 2 ≥ 65536 then .panicked
  else
    let c' : Cpu := { c with pc := c.pc + 2 }
    if c'.pc ≥ MEMORY_SIZE then .err .MemoryOutOfBounds c' else .ok c'

/-- increment_sp from cpu.rs: sp += 1 (a checked i16 add), then error
StackOverflow when the new sp is at least STACK_SIZE. The error is
returned with sp already incremented. -/
def Cpu.increment_sp (c : Cpu) : ExecResult :=
  if c.sp + 1 > 32767 then .panicked
  else
    let c' : Cpu := { c with sp := c.sp + 1 }
    if c'.sp ≥ (STACK_SIZE : Int) then .err .StackOverflow c' else .ok c'

/-- The Rust try-operator chaining of a skip opcode: after the optional
first increment_pc, a success runs the final increment_pc and an error
or abort propagates unchanged. -/
def ExecResult.thenPc : ExecResult → ExecResult
  | .ok c => c.increment_pc
  | r => r

/-- Opcode 00E0 (cls): clear the screen, then increment_pc. A
clear_screen abort propagates. -/
def Cpu.cls (c : Cpu) : ExecResult :=
  match c.dct.clear_screen with
  | none => .panicked
  | some d => Cpu.increment_pc { c with dct := d }

/-- Opcode 00EE (ret): pop the stack into pc and decrement sp, or error
EmptyStack. -/
def Cpu.ret (c : Cpu) : ExecResult :=
  match c.stk with
  | [] => .err .EmptyStack c
  | v :: rest =>
    if c.sp - 1 < -32768 then .panicked
    else .ok { c with pc := v, sp := c.sp - 1, stk := rest }

/-- Opcode 1nnn (jp): pc = nnn. No bounds or parity check. -/
def Cpu.jp (c : Cpu) (inst : Nat) : ExecResult :=
  .ok { c with pc := inst &&& 0x0FFF }

/-- Opcode 2nnn (call): increment_sp, push pc, pc = nnn. An increment_sp
error propagates with sp already incremented and nothing pushed. -/
def Cpu.call (c : Cpu) (inst : Nat) : ExecResult :=
  let addr := inst &&& 0x0FFF
  match c.increment_sp with
  | .ok c1 => .ok { c1 with stk := c1.pc :: c1.stk, pc := addr }
  | r => r

/-- Opcode 3xkk (sexb): skip next instruction when Vx = kk. -/
def Cpu.sexb (c : Cpu) (inst : Nat) : ExecResult :=
  let x := (inst &&& 0x0F00) >>> 8
  let kk := inst % 256
  ExecResult.thenPc (if c.reg x = kk then c.increment_pc else .ok c)

/-- Opcode 4xkk (snexb): skip next instruction when Vx differs from kk. -/
def Cpu.snexb (c : Cpu) (inst : Nat) : ExecResult :=
  let x := (inst &&& 0x0F00) >>> 8
  let kk := inst &&& 0x00FF
  ExecResult.thenPc (if c.reg x ≠ kk then c.increment_pc else .ok c)

/-- Opcode 5xy0 (sexy): skip next instruction when Vx = Vy. -/
def Cpu.sexy (c : Cpu) (inst : Nat) : ExecResult :=
  let x := (inst &&& 0x0F00) >>> 8
  let y := (inst &&& 0x00F0) >>> 4
  ExecResult.thenPc (if c.reg x = c.reg y then c.increment_pc else .ok c)

/-- Opcode 6xkk (ldxb): Vx = kk. -/
def Cpu.ldxb (c : Cpu) (inst : Nat) : ExecResult :=
  let x := (inst &&& 0x0F00) >>> 8
  let kk := inst % 256
  Cpu.increment_pc { c with reg := updFn c.reg x kk }

/-- Opcode 7xkk (addxb): reg[x] += kk, a CHECKED u8 add in the source: a
sum past 255 aborts a debug build instead of wrapping. -/
def Cpu.addxb (c : Cpu) (inst : Nat) : ExecResult :=
  let x := (inst &&& 0x0F00) >>> 8
  let kk := inst % 256
  if c.reg x + kk ≥ 256 then .panicked
  else Cpu.increment_pc { c with reg := updFn c.reg x (c.reg x + kk) }

/-- Opcode 8xy0 (ldxy): Vx = Vy. -/
def Cpu.ldxy (c : Cpu) (inst : Nat) : ExecResult :=
  let x := (inst &&& 0x0F00) >>> 8
  let y := (inst &&& 0x00F0) >>> 4
  Cpu.increment_pc { c with reg := updFn c.reg x (c.reg y) }

/-- Opcode 8xy1 (orxy): Vx = Vx OR Vy. -/
def Cpu.orxy (c : Cpu) (inst : Nat) : ExecResult :=
  let x := (inst &&& 0x0F00) >>> 8
  let y := (inst &&& 0x00F0) >>> 4
  Cpu.increment_pc { c with reg := updFn c.reg x (c.reg x ||| c.reg y) }

/-- Opcode 8xy2 (andxy): Vx = Vx AND Vy. -/
def Cpu.andxy (c : Cpu) (inst : Nat) : ExecResult :=
  let x := (inst &&& 0x0F00) >>> 8
  let y := (inst &&& 0x00F0) >>> 4
  Cpu.increment_pc { c with reg := updFn c.reg x (c.reg x &&& c.reg y) }

/-- Opcode 8xy3 (xorxy): Vx = Vx XOR Vy. -/
def Cpu.xorxy (c : Cpu) (inst : Nat) : ExecResult :=
  let x := (inst &&& 0x0F00) >>> 8
  let y := (inst &&& 0x00F0) >>> 4
  Cpu.increment_pc { c with reg := updFn c.reg x (c.reg x ^^^ c.reg y) }

/-- Opcode 8xy4 (addxy): the sum is taken in u16, VF is set to the carry
and then Vx to the low byte of the sum, in that order. -/
def Cpu.addxy (c : Cpu) (inst : Nat) : ExecResult :=
  let x := (inst &&& 0x0F00) >>> 8
  let y := (inst &&& 0x00F0) >>> 4
  let res := c.reg x + c.reg y
  let reg1 := updFn c.reg 0xF (if res > 255 then 1 else 0)
  Cpu.increment_pc { c with reg := updFn reg1 x (res % 256) }

/-- Wrapping u8 subtraction, wrapping_sub from the source. -/
def wrappingSub8 (a b : Nat) : Nat := (((a : Int) - (b : Int)) % 256).toNat

/-- Opcode 8xy5 (subxy): res = Vx wrapping-minus Vy, VF = 1 iff Vx > Vy,
then Vx = res, in that order. -/
def Cpu.subxy (c : Cpu) (inst : Nat) : ExecResult :=
  let x := (inst &&& 0x0F00) >>> 8
  let y := (inst &&& 0x00F0) >>> 4
  let res := wrappingSub8 (c.reg x) (c.reg y)
  let reg1 := updFn c.reg 0xF (if c.reg x > c.reg y then 1 else 0)
  Cpu.increment_pc { c with reg := updFn reg1 x res }

/-- Opcode 8xy6 (shrx): VF = the parity of Vx, then Vx is halved; the
halving reads the array AFTER the VF write, as in the source. -/
def Cpu.shrx (c : Cpu) (inst : Nat) : ExecResult :=
  let x := (inst &&& 0x0F00) >>> 8
  let reg1 := updFn c.reg 0xF (if c.reg x % 2 = 0 then 0 else 1)
  Cpu.increment_pc { c with reg := updFn reg1 x (reg1 x / 2) }

/-- Opcode 8xy7 (subnxy): res = Vy wrapping-minus Vx, VF = 1 iff Vy > Vx,
then Vx = res. -/
def Cpu.subnxy (c : Cpu) (inst : Nat) : ExecResult :=
  let x := (inst &&& 0x0F00) >>> 8
  let y := (inst &&& 0x00F0) >>> 4
  let res := wrappingSub8 (c.reg y) (c.reg x)
  let reg1 := updFn c.reg 0xF (if c.reg y > c.reg x then 1 else 0)
  Cpu.increment_pc { c with reg := updFn reg1 x res }

/-- Opcode 8xyE (shlx): VF = the top bit of Vx, then Vx is doubled with
wrapping; the doubling reads the array AFTER the VF write. -/
def Cpu.shlx (c : Cpu) (inst : Nat) : ExecResult :=
  let x := (inst &&& 0x0F00) >>> 8
  let reg1 := updFn c.reg 0xF (if c.reg x >>> 7 = 1 then 1 else 0)
  Cpu.increment_pc { c with reg := updFn reg1 x ((reg1 x * 2) % 256) }

/-- Opcode 9xy0 (snexy): skip next instruction when Vx differs from Vy. -/
def Cpu.snexy (c : Cpu) (inst : Nat) : ExecResult :=
  let x := (inst &&& 0x0F00) >>> 8
  let y := (inst &&& 0x00F0) >>> 4
  ExecResult.thenPc (if c.reg x ≠ c.reg y then c.increment_pc else .ok c)

/-- Opcode Annn (ldi): I = nnn. -/
def Cpu.ldi (c : Cpu) (inst : Nat) : ExecResult :=
  Cpu.increment_pc { c with i := inst &&& 0x0FFF }

/-- Opcode Bnnn (jp0): pc = nnn + V0. No bounds check at all — the next
fetch aborts when the sum reaches past memory. -/
def Cpu.jp0 (c : Cpu) (inst : Nat) : ExecResult :=
  .ok { c with pc := (inst &&& 0x0FFF) + c.reg 0 }

/-- Opcode Cxkk (rndx): Vx = random byte AND kk; the random byte is the
oracle argument rnd. -/
def Cpu.rndx (c : Cpu) (inst rnd : Nat) : ExecResult :=
  let x := (inst &&& 0x0F00) >>> 8
  let kk := inst % 256
  Cpu.increment_pc { c with reg := updFn c.reg x (rnd &&& kk) }

/-- The sprite-gathering loop of drwxy: the n bytes at memory I, I+1, …;
a read past memory aborts. -/
def Cpu.spriteFetch (c : Cpu) (n : Nat) : Option (List Nat) :=
  (List.range n).mapM fun j => c.memRead (c.i + j)

/-- Opcode Dxyn (drwxy): read the n-byte sprite at I, draw it at
(Vx, Vy), store the returned collision flag in VF, increment_pc. Aborts
from the sprite read or from draw propagate. -/
def Cpu.drwxy (c : Cpu) (inst : Nat) : ExecResult :=
  let x := (inst &&& 0x0F00) >>> 8
  let y := (inst &&& 0x00F0) >>> 4
  let n := inst &&& 0x000F
  match c.spriteFetch n with
  | none => .panicked
  | some sprite =>
    match c.dct.draw (c.reg x) (c.reg y) sprite with
    | none => .panicked
    | some (d, vf) =>
      Cpu.increment_pc { c with dct := d, reg := updFn c.reg 0xF vf }

/-- Opcode Ex9E (skpx): skip next instruction when key Vx is pressed. A
key of 16 or more aborts inside key_pressed. -/
def Cpu.skpx (c : Cpu) (inst : Nat) : ExecResult :=
  let x := (inst &&& 0x0F00) >>> 8
  match c.ict.key_pressed (c.reg x) with
  | none => .panicked
  | some b => ExecResult.thenPc (if b then c.increment_pc else .ok c)

/-- Opcode ExA1 (sknpx): skip next instruction when key Vx is NOT
pressed. -/
def Cpu.sknpx (c : Cpu) (inst : Nat) : ExecResult :=
  let x := (inst &&& 0x0F00) >>> 8
  match c.ict.key_pressed (c.reg x) with
  | none => .panicked
  | some b => ExecResult.thenPc (if !b then c.increment_pc else .ok c)

/-- Opcode Fx07 (ldxdt): Vx = delay timer. -/
def Cpu.ldxdt (c : Cpu) (inst : Nat) : ExecResult :=
  let x := (inst &&& 0x0F00) >>> 8
  Cpu.increment_pc { c with reg := updFn c.reg x c.dt }

/-- Opcode Fx0A (ldxk): record the pending register and set blocking,
then increment_pc. -/
def Cpu.ldxk (c : Cpu) (inst : Nat) : ExecResult :=
  let x := (inst &&& 0x0F00) >>> 8
  Cpu.increment_pc { c with reg_to_write := some x, blocking := true }

/-- Opcode Fx15 (lddtx) as written in the source: dt = x, the REGISTER
INDEX, not reg[x]. -/
def Cpu.lddtx (c : Cpu) (inst : Nat) : ExecResult :=
  let x := (inst &&& 0x0F00) >>> 8
  Cpu.increment_pc { c with dt := x }

/-- Opcode Fx18 (ldstx) as written in the source: st = x, the REGISTER
INDEX, not reg[x]. -/
def Cpu.ldstx (c : Cpu) (inst : Nat) : ExecResult :=
  let x := (inst &&& 0x0F00) >>> 8
  Cpu.increment_pc { c with st := x }

/-- Opcode Fx1E (addix): I += Vx, a checked u16 add. -/
def Cpu.addix (c : Cpu) (inst : Nat) : ExecResult :=
  let x := (inst &&& 0x0F00) >>> 8
  if c.i + c.reg x ≥ 65536 then .panicked
  else Cpu.increment_pc { c with i := c.i + c.reg x }

/-- Opcode Fx29 (ldfx): I = FONT_START_ADDR + Vx * 5, where Vx * 5 is a
CHECKED u8 multiply: a product past 255 aborts a debug build. -/
def Cpu.ldfx (c : Cpu) (inst : Nat) : ExecResult :=
  let x := (inst &&& 0x0F00) >>> 8
  if c.reg x * 5 ≥ 256 then .panicked
  else Cpu.increment_pc { c with i := FONT_START_ADDR + c.reg x * 5 }

/-- The while loop of ldbx: while num differs from 0 and j differs from
0, decrement j, write num mod 10 at memory I + j, divide num by 10. The
loop stops as soon as num reaches 0, leaving higher digit slots
untouched. A write past memory aborts. -/
def ldbxLoop (i : Nat) : (Nat → Nat) → Nat → Nat → Option (Nat → Nat)
  | mem, _, 0 => some mem
  | mem, num, j + 1 =>
    if num ≠ 0 then
      if i + j < MEMORY_SIZE then ldbxLoop i (updFn mem (i + j) (num % 10)) (num / 10) j
      else none
    else some mem

/-- Opcode Fx33 (ldbx): the BCD store loop starting at j = 3, then
increment_pc. -/
def Cpu.ldbx (c : Cpu) (inst : Nat) : ExecResult :=
  let x := (inst &&& 0x0F00) >>> 8
  match ldbxLoop c.i c.mem (c.reg x) 3 with
  | none => .panicked
  | some m => Cpu.increment_pc { c with mem := m }

/-- The store loop of ldiax: memory[I + j] = reg[j] for j = 0 .. x. -/
def ldiaxLoop (reg : Nat → Nat) (i : Nat) : (Nat → Nat) → Nat → Nat → Option (Nat → Nat)
  | mem, _, 0 => some mem
  | mem, j, k + 1 =>
    if i + j < MEMORY_SIZE then ldiaxLoop reg i (updFn mem (i + j) (reg j)) (j + 1) k
    else none

/-- Opcode Fx55 (ldiax): copy V0 through Vx to memory at I, then
increment_pc. -/
def Cpu.ldiax (c : Cpu) (inst : Nat) : ExecResult :=
  let x := (inst &&& 0x0F00) >>> 8
  match ldiaxLoop c.reg c.i c.mem 0 (x + 1) with
  | none => .panicked
  | some m => Cpu.increment_pc { c with mem := m }

/-- The load loop of ldxia: reg[j] = memory[I + j] for j = 0 .. x. -/
def ldxiaLoop (mem : Nat → Nat) (i : Nat) : (Nat → Nat) → Nat → Nat → Option (Nat → Nat)
  | reg, _, 0 => some reg
  | reg, j, k + 1 =>
    if i + j < MEMORY_SIZE then ldxiaLoop mem i (updFn reg j (mem (i + j))) (j + 1) k
    else none

/-- Opcode Fx65 (ldxia): copy memory at I into V0 through Vx, then
increment_pc. -/
def Cpu.ldxia (c : Cpu) (inst : Nat) : ExecResult :=
  let x := (inst &&& 0x0F00) >>> 8
  match ldxiaLoop c.mem c.i c.reg 0 (x + 1) with
  | none => .panicked
  | some r => Cpu.increment_pc { c with reg := r }

/-- The decode match of exec_routine from cpu.rs, arm by arm and in
order. Every Rust range pattern there is half-open (0x1000..0x1FFF
EXCLUDES 0x1FFF), so the values 0x1FFF, 0x2FFF, …, 0xFFFF fall through
to the final catch-all UnknownOpcode arm, exactly as in the source. -/
def Cpu.exec_inst (c : Cpu) (inst rnd : Nat) : ExecResult :=
  if inst = 0x00E0 then c.cls
  else if inst = 0x00EE then c.ret
  else if 0x1000 ≤ inst ∧ inst < 0x1FFF then c.jp inst
  else if 0x2000 ≤ inst ∧ inst < 0x2FFF then c.call inst
  else if 0x3000 ≤ inst ∧ inst < 0x3FFF then c.sexb inst
  else if 0x4000 ≤ inst ∧ inst < 0x4FFF then c.snexb inst
  else if 0x5000 ≤ inst ∧ inst < 0x5FFF then
    if inst &&& 0x000F ≠ 0 then .err .UnknownOpcode c else c.sexy inst
  else if 0x6000 ≤ inst ∧ inst < 0x6FFF then c.ldxb inst
  else if 0x7000 ≤ inst ∧ inst < 0x7FFF then c.addxb inst
  else if 0x8000 ≤ inst ∧ inst < 0x8FFF then
    if inst &&& 0x000F = 0x0 then c.ldxy inst
    else if inst &&& 0x000F = 0x1 then c.orxy inst
    else if inst &&& 0x000F = 0x2 then c.andxy inst
    else if inst &&& 0x000F = 0x3 then c.xorxy inst
    else if inst &&& 0x000F = 0x4 then c.addxy inst
    else if inst &&& 0x000F = 0x5 then c.subxy inst
    else if inst &&& 0x000F = 0x6 then c.shrx inst
    else if inst &&& 0x000F = 0x7 then c.subnxy inst
    else if inst &&& 0x000F = 0xE then c.shlx inst
    else .err .UnknownOpcode c
  else if 0x9000 ≤ inst ∧ inst < 0x9FFF then
    if inst &&& 0x000F ≠ 0 then .err .UnknownOpcode c else c.snexy inst
  else if 0xA000 ≤ inst ∧ inst < 0xAFFF then c.ldi inst
  else if 0xB000 ≤ inst ∧ inst < 0xBFFF then c.jp0 inst
  else if 0xC000 ≤ inst ∧ inst < 0xCFFF then c.rndx inst rnd
  else if 0xD000 ≤ inst ∧ inst < 0xDFFF then c.drwxy inst
  else if 0xE000 ≤ inst ∧ inst < 0xEFFF then
    if inst &&& 0x00FF = 0x9E then c.skpx inst
    else if inst &&& 0x00FF = 0xA1 then c.sknpx inst
    else .err .UnknownOpcode c
  else if 0xF000 ≤ inst ∧ inst < 0xFFFF then
    if inst &&& 0x00FF = 0x07 then c.ldxdt inst
    else if inst &&& 0x00FF = 0x0A then c.ldxk inst
    else if inst &&& 0x00FF = 0x15 then c.lddtx inst
    else if inst &&& 0x00FF = 0x18 then c.ldstx inst
    else if inst &&& 0x00FF = 0x1E then c.addix inst
    else if inst &&& 0x00FF = 0x29 then c.ldfx inst
    else if inst &&& 0x00FF = 0x33 then c.ldbx inst
    else if inst &&& 0x00FF = 0x55 then c.ldiax inst
    else if inst &&& 0x00FF = 0x65 then c.ldxia inst
    else .err .UnknownOpcode c
  else .err .UnknownOpcode c

/-- exec_routine from cpu.rs: fetch the two instruction bytes at pc and
pc + 1 (each read aborts past memory), pack them big-endian into a
16-bit word, and dispatch. -/
def Cpu.exec_routine (c : Cpu) (rnd : Nat) : ExecResult :=
  match c.memRead c.pc, c.memRead (c.pc + 1) with
  | some hi, some lo => c.exec_inst (((hi <<< 8) % 65536) ||| lo) rnd
  | _, _ => .panicked

/-- Iterated execution: perform n exec_routine steps (with the fixed
random oracle rnd), stopping at the first non-ok result. -/
def execN (rnd : Nat) : Nat → ExecResult → ExecResult
  | 0, r => r
  | n + 1, r =>
    match r with
    | .ok c => execN rnd n (c.exec_routine rnd)
    | r => r

/-- The post-state carried by a result, when there is one. -/
def ExecResult.post : ExecResult → Option Cpu
  | .ok c => some c
  | .err _ c => some c
  | .panicked => none

/-- The error carried by a result, when there is one. -/
def ExecResult.errOf : ExecResult → Option CpuError
  | .err e _ => some e
  | _ => none

/-- Whether a result is a success. -/
def ExecResult.isOk : ExecResult → Bool
  | .ok _ => true
  | _ => false

/-- The states reachable from the freshly constructed machine through
load_program and exec_routine (both the success and the error outcome of
a step, with any random oracle byte and any program). -/
inductive Reaches : Cpu → Prop where
  | init : Reaches initCpu
  | load : ∀ {c : Cpu} (prog : List Nat), Reaches c → Reaches (c.load_program prog)
  | stepOk : ∀ {c c' : Cpu} (rnd : Nat), Reaches c →
      c.exec_routine rnd = .ok c' → Reaches c'
  | stepErr : ∀ {c c' : Cpu} (rnd : Nat) (e : CpuError), Reaches c →
      c.exec_routine rnd = .err e c' → Reaches c'

/-! ## Concrete machine states used by the claim theorems -/

/-- A machine whose first instruction word is the two given bytes and
whose memory is otherwise zero. -/
def mkCpu2 (b0 b1 : Nat) : Cpu :=
  { initCpu with mem := fun a => if a = 0 then b0 else if a = 1 then b1 else 0 }

/-- Fx15 with x = 0 while V0 = 7 and the delay timer starts at 99. -/
def lddtxCpu : Cpu :=
  { mkCpu2 0xF0 0x15 with reg := fun r => if r = 0 then 7 else 0, dt := 99 }

/-- Fx18 with x = 3 while V3 = 9. -/
def ldstxCpu : Cpu :=
  { mkCpu2 0xF3 0x18 with reg := fun r => if r = 3 then 9 else 0 }

/-- Ex9E with V0 = 16: the key query shifts by 16 on a 16-bit value. -/
def skpxCpu : Cpu :=
  { mkCpu2 0xE0 0x9E with reg := fun r => if r = 0 then 16 else 0 }

/-- CALL 0x000 stored at address 0: every execution step is one more
nested call. -/
def callCpu : Cpu := mkCpu2 0x20 0x00

/-- RET at address 0 with an empty call stack. -/
def retCpu : Cpu := mkCpu2 0x00 0xEE

/-- Fx33 with V0 = 5, I = 0x300 and a stale 9 already at memory 0x300. -/
def ldbxCpu : Cpu :=
  { initCpu with
    reg := fun r => if r = 0 then 5 else 0,
    i := 0x300,
    mem := fun a => if a = 0 then 0xF0 else if a = 1 then 0x33 else if a = 0x300 then 9 else 0 }

/-- Instruction 6A22 (LD VA, 0x22) stored at address 4094, the last
instruction slot. -/
def ldxbEndCpu : Cpu :=
  { initCpu with
    pc := 4094,
    mem := fun a => if a = 4094 then 0x6A else if a = 4095 then 0x22 else 0 }

/-- A machine blocked on an empty call stack, used to instantiate the
amended error-atomicity theorem. -/
def emptyStackCpu : Cpu := mkCpu2 0x00 0xEE

/-- Instruction 7001 (ADD V0, 0x01) with V0 = 255. -/
def addxbCpu : Cpu :=
  { mkCpu2 0x70 0x01 with reg := fun r => if r = 0 then 255 else 0 }

/-- A frame buffer whose byte 0 holds 0xF0 (exactly the buffer produced
by drawing the 0 glyph at the origin) and is otherwise zero. -/
def dirtyFb : List Nat := 0xF0 :: List.replicate 31 0

/-! ## Claim theorems -/

/-- Claim C1: the claim says release(k) on a key that is not pressed
leaves the key state unchanged. In the source unpress_key XORs the key
bit, so releasing the un-pressed key 0xA on an all-released controller
SETS its bit: the key reads back as pressed afterwards, refuting the
no-op and idempotence claim at this input. -/
theorem c1_unpress_key_toggles :
    InputController.key_pressed ⟨0⟩ 0xA = some false ∧
    InputController.unpress_key ⟨0⟩ 0xA = some ⟨1024⟩ ∧
    ((InputController.unpress_key ⟨0⟩ 0xA).bind fun i => i.key_pressed 0xA) = some true :=
  ⟨rfl, rfl, rfl⟩

/-- Claim C2: the claim says the frame buffer is 256 bytes and draw
stays in bounds for every sprite start inside the 64 by 32 grid. In the
source PIXEL_COUNT is (64/8) * (32/8) = 32, and drawing a one-byte
sprite at (8, 31) computes buffer index get_idx 8 31 = 32, one past the
32-byte buffer, so draw aborts on an out-of-range index. -/
theorem c2_draw_out_of_bounds :
    PIXEL_COUNT = 32 ∧
    DisplayController.default.frame_buffer.length = 32 ∧
    get_idx 8 31 = 32 ∧
    DisplayController.default.draw 8 31 [0x01] = none :=
  ⟨rfl, by decide, rfl, rfl⟩

/-- Claim C3: the claim says Fx15 sets the delay timer to Vx and Fx18
the sound timer to Vx. The source assigns the register INDEX x instead:
executing F015 with V0 = 7 leaves dt = 0 (not 7), and F318 with V3 = 9
leaves st = 3 (not 9). -/
theorem c3_timer_gets_index_not_value :
    lddtxCpu.reg 0 = 7 ∧ (lddtxCpu.exec_routine 0).post.map Cpu.dt = some 0 ∧
    ldstxCpu.reg 3 = 9 ∧ (ldstxCpu.exec_routine 0).post.map Cpu.st = some 3 :=
  ⟨rfl, rfl, rfl, rfl⟩

/-- Claim C4: the claim says clear() always terminates with an all-zero
buffer. The source iterates over the buffer VALUES and uses each value
as an index to zero, so on a buffer whose byte 0 is 0xF0 (the very
buffer produced by drawing the 0 glyph at the origin) it indexes
position 240 of the 32-byte array and aborts; and on the in-range buffer
holding 7 at index 31 it terminates with that byte still 7. -/
theorem c4_clear_screen_wrong :
    DisplayController.clear_screen ⟨dirtyFb⟩ = none ∧
    (DisplayController.clear_screen ⟨List.replicate 31 0 ++ [7]⟩).map
      (fun d => d.frame_buffer.getD 31 0) = some 7 :=
  ⟨rfl, by decide⟩

/-- Claim C5: the claim says execute_one never panics, in particular not
for Ex9E when Vx is 16 or more. Executing E09E with V0 = 16 reaches
key_pressed, which shifts a 16-bit 1 left by 16 — a debug-build abort,
not a typed CpuError. -/
theorem c5_skpx_key16_panics :
    skpxCpu.reg 0 = 16 ∧ skpxCpu.exec_routine 0 = ExecResult.panicked :=
  ⟨rfl, rfl⟩

/-- Claim C6: the claim says 16 nested CALLs succeed and the 17th
returns StackOverflow. In the source increment_sp errors as soon as the
incremented sp reaches 16, so from the initial machine only 15 nested
CALLs succeed and the 16th already returns StackOverflow. RET on an
empty stack does return EmptyStack, as claimed. -/
theorem c6_sixteenth_call_overflows :
    (execN 0 15 (.ok callCpu)).isOk = true ∧
    (execN 0 15 (.ok callCpu)).post.map Cpu.sp = some 15 ∧
    (execN 0 16 (.ok callCpu)).errOf = some CpuError.StackOverflow ∧
    (retCpu.exec_routine 0).errOf = some CpuError.EmptyStack :=
  ⟨rfl, rfl, rfl, rfl⟩

/-- Claim C7: the claim says Fx33 writes the hundreds, tens and ones
digits of Vx at I, I+1, I+2 for every Vx and every prior memory. The
source loop stops once the remaining value reaches 0, so for V0 = 5 with
a stale 9 at memory I the hundreds slot keeps the 9 (the claim requires
0 there) and only the ones slot is written. -/
theorem c7_ldbx_skips_leading_zeros :
    ldbxCpu.reg 0 = 5 ∧
    (ldbxCpu.exec_routine 0).post.map
      (fun c => (c.mem 0x300, c.mem 0x301, c.mem 0x302)) = some (9, 0, 5) :=
  ⟨rfl, rfl⟩

/-- On any state whose pc is 0 and whose first two memory bytes are 0,
exec_routine fetches the word 0x0000, which matches no decode arm, and
returns UnknownOpcode without touching the state. -/
theorem exec_routine_stuck_at_zero (c : Cpu) (hpc : c.pc = 0)
    (h0 : c.mem 0 = 0) (h1 : c.mem 1 = 0) (rnd : Nat) :
    c.exec_routine rnd = .err .UnknownOpcode c := by
  unfold Cpu.exec_routine Cpu.memRead
  rw [hpc]
  norm_num [MEMORY_SIZE, h0, h1]
  rfl

/-- Every reachable state still has pc = 0 and the zero instruction word
at address 0: the constructor leaves pc at 0 and writes nothing below
FONT_START_ADDR, load_program writes only from PROGRAM_ENTRY_POINT on,
and every execution step fails with UnknownOpcode without changing the
state. -/
theorem reaches_stuck (c : Cpu) (h : Reaches c) :
    c.pc = 0 ∧ c.mem 0 = 0 ∧ c.mem 1 = 0 := by
  induction h with
  | init => exact ⟨rfl, rfl, rfl⟩
  | load prog _ ih =>
    refine ⟨ih.1, ?_, ?_⟩
    · simpa [Cpu.load_program, PROGRAM_ENTRY_POINT] using ih.2.1
    · simpa [Cpu.load_program, PROGRAM_ENTRY_POINT] using ih.2.2
  | stepOk rnd _ hstep ih =>
    rw [exec_routine_stuck_at_zero _ ih.1 ih.2.1 ih.2.2 rnd] at hstep
    cases hstep
  | stepErr rnd e _ hstep ih =>
    rw [exec_routine_stuck_at_zero _ ih.1 ih.2.1 ih.2.2 rnd] at hstep
    cases hstep
    exact ih

/-- Claim C8: in every state reachable from the initial machine through
load_program and exec_routine steps, the program counter is even and
below 4096. This holds — though only because pc is initialised to 0,
nothing ever sets it to the 0x200 entry point, and the word fetched at 0
is 0x0000 (UnknownOpcode), so no step ever moves pc at all. -/
theorem c8_pc_even_and_bounded (c : Cpu) (h : Reaches c) :
    c.pc % 2 = 0 ∧ c.pc < 4096 := by
  rcases reaches_stuck c h with ⟨hpc, -, -⟩
  rw [hpc]
  exact ⟨rfl, by norm_num⟩

/-- Witness for C8 at the initial machine itself. -/
theorem c8_pc_even_and_bounded_witness :
    initCpu.pc % 2 = 0 ∧ initCpu.pc < 4096 :=
  c8_pc_even_and_bounded initCpu Reaches.init

/-- increment_pc only ever errors with MemoryOutOfBounds, and then the
carried state has pc already advanced to at least 4096. -/
theorem increment_pc_err {c c' : Cpu} {e : CpuError}
    (h : c.increment_pc = .err e c') :
    e = CpuError.MemoryOutOfBounds ∧ 4096 ≤ c'.pc := by
  unfold Cpu.increment_pc at h
  split at h
  · cases h
  · dsimp only at h
    split at h
    next hge =>
      injection h with h1 h2
      subst h1
      subst h2
      exact ⟨rfl, by simpa only [MEMORY_SIZE] using hge⟩
    next => cases h

/-- increment_sp only ever errors with StackOverflow, and then the
carried state is the input with sp incremented. -/
theorem increment_sp_err {c c' : Cpu} {e : CpuError}
    (h : c.increment_sp = .err e c') :
    e = CpuError.StackOverflow ∧ c' = { c with sp := c.sp + 1 } := by
  unfold Cpu.increment_sp at h
  split at h
  · cases h
  · dsimp only at h
    split at h
    · injection h with h1 h2
      subst h1
      subst h2
      exact ⟨rfl, rfl⟩
    · cases h

/-- The try-operator chain of a skip opcode only errors through
increment_pc, hence with MemoryOutOfBounds and an advanced pc. -/
theorem skip_err {c c' : Cpu} {e : CpuError} (P : Prop) [Decidable P]
    (h : ExecResult.thenPc (if P then c.increment_pc else .ok c) = .err e c') :
    e = CpuError.MemoryOutOfBounds ∧ 4096 ≤ c'.pc := by
  split at h
  · cases hi : c.increment_pc with
    | ok c1 =>
      rw [hi] at h
      exact increment_pc_err h
    | err e1 c1 =>
      rw [hi] at h
      simp only [ExecResult.thenPc] at h
      rw [h] at hi
      exact increment_pc_err hi
    | panicked =>
      rw [hi] at h
      cases h
  · simp only [ExecResult.thenPc] at h
    exact increment_pc_err h

theorem cls_err {c c' : Cpu} {e : CpuError} (h : c.cls = .err e c') :
    e = CpuError.MemoryOutOfBounds ∧ 4096 ≤ c'.pc := by
  unfold Cpu.cls at h
  split at h
  · cases h
  · exact increment_pc_err h

theorem ret_err {c c' : Cpu} {e : CpuError} (h : c.ret = .err e c') :
    e = CpuError.EmptyStack ∧ c' = c := by
  unfold Cpu.ret at h
  split at h
  · injection h with h1 h2
    subst h1
    subst h2
    exact ⟨rfl, rfl⟩
  · split at h
    · cases h
    · cases h

theorem call_err {c c' : Cpu} {e : CpuError} {inst : Nat}
    (h : c.call inst = .err e c') :
    e = CpuError.StackOverflow ∧ c' = { c with sp := c.sp + 1 } := by
  unfold Cpu.call at h
  cases hi : c.increment_sp with
  | ok c1 =>
    rw [hi] at h
    cases h
  | err e1 c1 =>
    rw [hi] at h
    obtain ⟨he, hc⟩ := increment_sp_err hi
    injection h with h1 h2
    subst h1
    subst h2
    exact ⟨he, hc⟩
  | panicked =>
    rw [hi] at h
    cases h

theorem sexb_err {c c' : Cpu} {e : CpuError} {inst : Nat}
    (h : c.sexb inst = .err e c') :
    e = CpuError.MemoryOutOfBounds ∧ 4096 ≤ c'.pc := by
  unfold Cpu.sexb at h
  exact skip_err _ h

theorem snexb_err {c c' : Cpu} {e : CpuError} {inst : Nat}
    (h : c.snexb inst = .err e c') :
    e = CpuError.MemoryOutOfBounds ∧ 4096 ≤ c'.pc := by
  unfold Cpu.snexb at h
  exact skip_err _ h

theorem sexy_err {c c' : Cpu} {e : CpuError} {inst : Nat}
    (h : c.sexy inst = .err e c') :
    e = CpuError.MemoryOutOfBounds ∧ 4096 ≤ c'.pc := by
  unfold Cpu.sexy at h
  exact skip_err _ h

theorem snexy_err {c c' : Cpu} {e : CpuError} {inst : Nat}
    (h : c.snexy inst = .err e c') :
    e = CpuError.MemoryOutOfBounds ∧ 4096 ≤ c'.pc := by
  unfold Cpu.snexy at h
  exact skip_err _ h

theorem ldxb_err {c c' : Cpu} {e : CpuError} {inst : Nat}
    (h : c.ldxb inst = .err e c') :
    e = CpuError.MemoryOutOfBounds ∧ 4096 ≤ c'.pc := by
  unfold Cpu.ldxb at h
  exact increment_pc_err h

theorem addxb_err {c c' : Cpu} {e : CpuError} {inst : Nat}
    (h : c.addxb inst = .err e c') :
    e = CpuError.MemoryOutOfBounds ∧ 4096 ≤ c'.pc := by
  unfold Cpu.addxb at h
  dsimp only at h
  split at h
  · cases h
  · exact increment_pc_err h

theorem ldxy_err {c c' : Cpu} {e : CpuError} {inst : Nat}
    (h : c.ldxy inst = .err e c') :
    e = CpuError.MemoryOutOfBounds ∧ 4096 ≤ c'.pc := by
  unfold Cpu.ldxy at h
  exact increment_pc_err h

theorem orxy_err {c c' : Cpu} {e : CpuError} {inst : Nat}
    (h : c.orxy inst = .err e c') :
    e = CpuError.MemoryOutOfBounds ∧ 4096 ≤ c'.pc := by
  unfold Cpu.orxy at h
  exact increment_pc_err h

theorem andxy_err {c c' : Cpu} {e : CpuError} {inst : Nat}
    (h : c.andxy inst = .err e c') :
    e = CpuError.MemoryOutOfBounds ∧ 4096 ≤ c'.pc := by
  unfold Cpu.andxy at h
  exact increment_pc_err h

theorem xorxy_err {c c' : Cpu} {e : CpuError} {inst : Nat}
    (h : c.xorxy inst = .err e c') :
    e = CpuError.MemoryOutOfBounds ∧ 4096 ≤ c'.pc := by
  unfold Cpu.xorxy at h
  exact increment_pc_err h

theorem addxy_err {c c' : Cpu} {e : CpuError} {inst : Nat}
    (h : c.addxy inst = .err e c') :
    e = CpuError.MemoryOutOfBounds ∧ 4096 ≤ c'.pc := by
  unfold Cpu.addxy at h
  exact increment_pc_err h

theorem subxy_err {c c' : Cpu} {e : CpuError} {inst : Nat}
    (h : c.subxy inst = .err e c') :
    e = CpuError.MemoryOutOfBounds ∧ 4096 ≤ c'.pc := by
  unfold Cpu.subxy at h
  exact increment_pc_err h

theorem shrx_err {c c' : Cpu} {e : CpuError} {inst : Nat}
    (h : c.shrx inst = .err e c') :
    e = CpuError.MemoryOutOfBounds ∧ 4096 ≤ c'.pc := by
  unfold Cpu.shrx at h
  exact increment_pc_err h

theorem subnxy_err {c c' : Cpu} {e : CpuError} {inst : Nat}
    (h : c.subnxy inst = .err e c') :
    e = CpuError.MemoryOutOfBounds ∧ 4096 ≤ c'.pc := by
  unfold Cpu.subnxy at h
  exact increment_pc_err h

theorem shlx_err {c c' : Cpu} {e : CpuError} {inst : Nat}
    (h : c.shlx inst = .err e c') :
    e = CpuError.MemoryOutOfBounds ∧ 4096 ≤ c'.pc := by
  unfold Cpu.shlx at h
  exact increment_pc_err h

theorem ldi_err {c c' : Cpu} {e : CpuError} {inst : Nat}
    (h : c.ldi inst = .err e c') :
    e = CpuError.MemoryOutOfBounds ∧ 4096 ≤ c'.pc := by
  unfold Cpu.ldi at h
  exact increment_pc_err h

theorem rndx_err {c c' : Cpu} {e : CpuError} {inst rnd : Nat}
    (h : c.rndx inst rnd = .err e c') :
    e = CpuError.MemoryOutOfBounds ∧ 4096 ≤ c'.pc := by
  unfold Cpu.rndx at h
  exact increment_pc_err h

theorem drwxy_err {c c' : Cpu} {e : CpuError} {inst : Nat}
    (h : c.drwxy inst = .err e c') :
    e = CpuError.MemoryOutOfBounds ∧ 4096 ≤ c'.pc := by
  unfold Cpu.drwxy at h
  dsimp only at h
  split at h
  · cases h
  · split at h
    · cases h
    · exact increment_pc_err h

theorem skpx_err {c c' : Cpu} {e : CpuError} {inst : Nat}
    (h : c.skpx inst = .err e c') :
    e = CpuError.MemoryOutOfBounds ∧ 4096 ≤ c'.pc := by
  unfold Cpu.skpx at h
  dsimp only at h
  split at h
  · cases h
  · exact skip_err _ h

theorem sknpx_err {c c' : Cpu} {e : CpuError} {inst : Nat}
    (h : c.sknpx inst = .err e c') :
    e = CpuError.MemoryOutOfBounds ∧ 4096 ≤ c'.pc := by
  unfold Cpu.sknpx at h
  dsimp only at h
  split at h
  · cases h
  · exact skip_err _ h

theorem ldxdt_err {c c' : Cpu} {e : CpuError} {inst : Nat}
    (h : c.ldxdt inst = .err e c') :
    e = CpuError.MemoryOutOfBounds ∧ 4096 ≤ c'.pc := by
  unfold Cpu.ldxdt at h
  exact increment_pc_err h

theorem ldxk_err {c c' : Cpu} {e : CpuError} {inst : Nat}
    (h : c.ldxk inst = .err e c') :
    e = CpuError.MemoryOutOfBounds ∧ 4096 ≤ c'.pc := by
  unfold Cpu.ldxk at h
  exact increment_pc_err h

theorem lddtx_err {c c' : Cpu} {e : CpuError} {inst : Nat}
    (h : c.lddtx inst = .err e c') :
    e = CpuError.MemoryOutOfBounds ∧ 4096 ≤ c'.pc := by
  unfold Cpu.lddtx at h
  exact increment_pc_err h

theorem ldstx_err {c c' : Cpu} {e : CpuError} {inst : Nat}
    (h : c.ldstx inst = .err e c') :
    e = CpuError.MemoryOutOfBounds ∧ 4096 ≤ c'.pc := by
  unfold Cpu.ldstx at h
  exact increment_pc_err h

theorem addix_err {c c' : Cpu} {e : CpuError} {inst : Nat}
    (h : c.addix inst = .err e c') :
    e = CpuError.MemoryOutOfBounds ∧ 4096 ≤ c'.pc := by
  unfold Cpu.addix at h
  dsimp only at h
  split at h
  · cases h
  · exact increment_pc_err h

theorem ldfx_err {c c' : Cpu} {e : CpuError} {inst : Nat}
    (h : c.ldfx inst = .err e c') :
    e = CpuError.MemoryOutOfBounds ∧ 4096 ≤ c'.pc := by
  unfold Cpu.ldfx at h
  dsimp only at h
  split at h
  · cases h
  · exact increment_pc_err h

theorem ldbx_err {c c' : Cpu} {e : CpuError} {inst : Nat}
    (h : c.ldbx inst = .err e c') :
    e = CpuError.MemoryOutOfBounds ∧ 4096 ≤ c'.pc := by
  unfold Cpu.ldbx at h
  dsimp only at h
  split at h
  · cases h
  · exact increment_pc_err h

theorem ldiax_err {c c' : Cpu} {e : CpuError} {inst : Nat}
    (h : c.ldiax inst = .err e c') :
    e = CpuError.MemoryOutOfBounds ∧ 4096 ≤ c'.pc := by
  unfold Cpu.ldiax at h
  dsimp only at h
  split at h
  · cases h
  · exact increment_pc_err h

theorem ldxia_err {c c' : Cpu} {e : CpuError} {inst : Nat}
    (h : c.ldxia inst = .err e c') :
    e = CpuError.MemoryOutOfBounds ∧ 4096 ≤ c'.pc := by
  unfold Cpu.ldxia at h
  dsimp only at h
  split at h
  · cases h
  · exact increment_pc_err h

/-- Packaging of the four error implications out of a
MemoryOutOfBounds-shaped per-opcode lemma. -/
theorem errSpec_of_pc {c c' : Cpu} {e : CpuError}
    (h : e = CpuError.MemoryOutOfBounds ∧ 4096 ≤ c'.pc) :
    (e = CpuError.UnknownOpcode → c' = c) ∧
    (e = CpuError.EmptyStack → c' = c) ∧
    (e = CpuError.StackOverflow → c' = { c with sp := c.sp + 1 }) ∧
    (e = CpuError.MemoryOutOfBounds → 4096 ≤ c'.pc) := by
  obtain ⟨rfl, h2⟩ := h
  refine ⟨?_, ?_, ?_, fun _ => h2⟩ <;> intro hh <;> cases hh

/-- Packaging for the EmptyStack case of ret. -/
theorem errSpec_of_ret {c c' : Cpu} {e : CpuError}
    (h : e = CpuError.EmptyStack ∧ c' = c) :
    (e = CpuError.UnknownOpcode → c' = c) ∧
    (e = CpuError.EmptyStack → c' = c) ∧
    (e = CpuError.StackOverflow → c' = { c with sp := c.sp + 1 }) ∧
    (e = CpuError.MemoryOutOfBounds → 4096 ≤ c'.pc) := by
  obtain ⟨rfl, rfl⟩ := h
  refine ⟨?_, fun _ => rfl, ?_, ?_⟩ <;> intro hh <;> cases hh

/-- Packaging for the StackOverflow case of call. -/
theorem errSpec_of_call {c c' : Cpu} {e : CpuError}
    (h : e = CpuError.StackOverflow ∧ c' = { c with sp := c.sp + 1 }) :
    (e = CpuError.UnknownOpcode → c' = c) ∧
    (e = CpuError.EmptyStack → c' = c) ∧
    (e = CpuError.StackOverflow → c' = { c with sp := c.sp + 1 }) ∧
    (e = CpuError.MemoryOutOfBounds → 4096 ≤ c'.pc) := by
  obtain ⟨rfl, rfl⟩ := h
  refine ⟨?_, ?_, fun _ => rfl, ?_⟩ <;> intro hh <;> cases hh

/-- Packaging for the decode fall-through arms, which return
UnknownOpcode with the state untouched. -/
theorem errSpec_of_unknown {c c' : Cpu} {e : CpuError}
    (h : ExecResult.err CpuError.UnknownOpcode c = .err e c') :
    (e = CpuError.UnknownOpcode → c' = c) ∧
    (e = CpuError.EmptyStack → c' = c) ∧
    (e = CpuError.StackOverflow → c' = { c with sp := c.sp + 1 }) ∧
    (e = CpuError.MemoryOutOfBounds → 4096 ≤ c'.pc) := by
  injection h with h1 h2
  subst h1
  subst h2
  refine ⟨fun _ => rfl, ?_, ?_, ?_⟩ <;> intro hh <;> cases hh

set_option maxHeartbeats 3200000 in
/-- Case analysis over the whole decode table: whenever exec_inst
returns a typed error, UnknownOpcode and EmptyStack leave the state
untouched, StackOverflow differs from the pre-state only in the
incremented stack pointer, and MemoryOutOfBounds carries a state whose
pc has been advanced to at least 4096. -/
theorem exec_inst_err_spec (c : Cpu) (inst rnd : Nat) (e : CpuError) (c' : Cpu)
    (h : c.exec_inst inst rnd = .err e c') :
    (e = CpuError.UnknownOpcode → c' = c) ∧
    (e = CpuError.EmptyStack → c' = c) ∧
    (e = CpuError.StackOverflow → c' = { c with sp := c.sp + 1 }) ∧
    (e = CpuError.MemoryOutOfBounds → 4096 ≤ c'.pc) := by
  unfold Cpu.exec_inst at h
  by_cases hc1 : inst = 0x00E0
  · rw [if_pos hc1] at h
    exact errSpec_of_pc (cls_err h)
  rw [if_neg hc1] at h
  by_cases hc2 : inst = 0x00EE
  · rw [if_pos hc2] at h
    exact errSpec_of_ret (ret_err h)
  rw [if_neg hc2] at h
  by_cases hc3 : 0x1000 ≤ inst ∧ inst < 0x1FFF
  · rw [if_pos hc3] at h
    unfold Cpu.jp at h
    cases h
  rw [if_neg hc3] at h
  by_cases hc4 : 0x2000 ≤ inst ∧ inst < 0x2FFF
  · rw [if_pos hc4] at h
    exact errSpec_of_call (call_err h)
  rw [if_neg hc4] at h
  by_cases hc5 : 0x3000 ≤ inst ∧ inst < 0x3FFF
  · rw [if_pos hc5] at h
    exact errSpec_of_pc (sexb_err h)
  rw [if_neg hc5] at h
  by_cases hc6 : 0x4000 ≤ inst ∧ inst < 0x4FFF
  · rw [if_pos hc6] at h
    exact errSpec_of_pc (snexb_err h)
  rw [if_neg hc6] at h
  by_cases hc7 : 0x5000 ≤ inst ∧ inst < 0x5FFF
  · rw [if_pos hc7] at h
    by_cases hc8 : inst &&& 0x000F ≠ 0
    · rw [if_pos hc8] at h
      exact errSpec_of_unknown h
    rw [if_neg hc8] at h
    exact errSpec_of_pc (sexy_err h)
  rw [if_neg hc7] at h
  by_cases hc9 : 0x6000 ≤ inst ∧ inst < 0x6FFF
  · rw [if_pos hc9] at h
    exact errSpec_of_pc (ldxb_err h)
  rw [if_neg hc9] at h
  by_cases hc10 : 0x7000 ≤ inst ∧ inst < 0x7FFF
  · rw [if_pos hc10] at h
    exact errSpec_of_pc (addxb_err h)
  rw [if_neg hc10] at h
  by_cases hc11 : 0x8000 ≤ inst ∧ inst < 0x8FFF
  · rw [if_pos hc11] at h
    by_cases hc12 : inst &&& 0x000F = 0x0
    · rw [if_pos hc12] at h
      exact errSpec_of_pc (ldxy_err h)
    rw [if_neg hc12] at h
    by_cases hc13 : inst &&& 0x000F = 0x1
    · rw [if_pos hc13] at h
      exact errSpec_of_pc (orxy_err h)
    rw [if_neg hc13] at h
    by_cases hc14 : inst &&& 0x000F = 0x2
    · rw [if_pos hc14] at h
      exact errSpec_of_pc (andxy_err h)
    rw [if_neg hc14] at h
    by_cases hc15 : inst &&& 0x000F = 0x3
    · rw [if_pos hc15] at h
      exact errSpec_of_pc (xorxy_err h)
    rw [if_neg hc15] at h
    by_cases hc16 : inst &&& 0x000F = 0x4
    · rw [if_pos hc16] at h
      exact errSpec_of_pc (addxy_err h)
    rw [if_neg hc16] at h
    by_cases hc17 : inst &&& 0x000F = 0x5
    · rw [if_pos hc17] at h
      exact errSpec_of_pc (subxy_err h)
    rw [if_neg hc17] at h
    by_cases hc18 : inst &&& 0x000F = 0x6
    · rw [if_pos hc18] at h
      exact errSpec_of_pc (shrx_err h)
    rw [if_neg hc18] at h
    by_cases hc19 : inst &&& 0x000F = 0x7
    · rw [if_pos hc19] at h
      exact errSpec_of_pc (subnxy_err h)
    rw [if_neg hc19] at h
    by_cases hc20 : inst &&& 0x000F = 0xE
    · rw [if_pos hc20] at h
      exact errSpec_of_pc (shlx_err h)
    rw [if_neg hc20] at h
    exact errSpec_of_unknown h
  rw [if_neg hc11] at h
  by_cases hc21 : 0x9000 ≤ inst ∧ inst < 0x9FFF
  · rw [if_pos hc21] at h
    by_cases hc22 : inst &&& 0x000F ≠ 0
    · rw [if_pos hc22] at h
      exact errSpec_of_unknown h
    rw [if_neg hc22] at h
    exact errSpec_of_pc (snexy_err h)
  rw [if_neg hc21] at h
  by_cases hc23 : 0xA000 ≤ inst ∧ inst < 0xAFFF
  · rw [if_pos hc23] at h
    exact errSpec_of_pc (ldi_err h)
  rw [if_neg hc23] at h
  by_cases hc24 : 0xB000 ≤ inst ∧ inst < 0xBFFF
  · rw [if_pos hc24] at h
    unfold Cpu.jp0 at h
    cases h
  rw [if_neg hc24] at h
  by_cases hc25 : 0xC000 ≤ inst ∧ inst < 0xCFFF
  · rw [if_pos hc25] at h
    exact errSpec_of_pc (rndx_err h)
  rw [if_neg hc25] at h
  by_cases hc26 : 0xD000 ≤ inst ∧ inst < 0xDFFF
  · rw [if_pos hc26] at h
    exact errSpec_of_pc (drwxy_err h)
  rw [if_neg hc26] at h
  by_cases hc27 : 0xE000 ≤ inst ∧ inst < 0xEFFF
  · rw [if_pos hc27] at h
    by_cases hc28 : inst &&& 0x00FF = 0x9E
    · rw [if_pos hc28] at h
      exact errSpec_of_pc (skpx_err h)
    rw [if_neg hc28] at h
    by_cases hc29 : inst &&& 0x00FF = 0xA1
    · rw [if_pos hc29] at h
      exact errSpec_of_pc (sknpx_err h)
    rw [if_neg hc29] at h
    exact errSpec_of_unknown h
  rw [if_neg hc27] at h
  by_cases hc30 : 0xF000 ≤ inst ∧ inst < 0xFFFF
  · rw [if_pos hc30] at h
    by_cases hc31 : inst &&& 0x00FF = 0x07
    · rw [if_pos hc31] at h
      exact errSpec_of_pc (ldxdt_err h)
    rw [if_neg hc31] at h
    by_cases hc32 : inst &&& 0x00FF = 0x0A
    · rw [if_pos hc32] at h
      exact errSpec_of_pc (ldxk_err h)
    rw [if_neg hc32] at h
    by_cases hc33 : inst &&& 0x00FF = 0x15
    · rw [if_pos hc33] at h
      exact errSpec_of_pc (lddtx_err h)
    rw [if_neg hc33] at h
    by_cases hc34 : inst &&& 0x00FF = 0x18
    · rw [if_pos hc34] at h
      exact errSpec_of_pc (ldstx_err h)
    rw [if_neg hc34] at h
    by_cases hc35 : inst &&& 0x00FF = 0x1E
    · rw [if_pos hc35] at h
      exact errSpec_of_pc (addix_err h)
    rw [if_neg hc35] at h
    by_cases hc36 : inst &&& 0x00FF = 0x29
    · rw [if_pos hc36] at h
      exact errSpec_of_pc (ldfx_err h)
    rw [if_neg hc36] at h
    by_cases hc37 : inst &&& 0x00FF = 0x33
    · rw [if_pos hc37] at h
      exact errSpec_of_pc (ldbx_err h)
    rw [if_neg hc37] at h
    by_cases hc38 : inst &&& 0x00FF = 0x55
    · rw [if_pos hc38] at h
      exact errSpec_of_pc (ldiax_err h)
    rw [if_neg hc38] at h
    by_cases hc39 : inst &&& 0x00FF = 0x65
    · rw [if_pos hc39] at h
      exact errSpec_of_pc (ldxia_err h)
    rw [if_neg hc39] at h
    exact errSpec_of_unknown h
  rw [if_neg hc30] at h
  exact errSpec_of_unknown h

/-- Claim C9 counterexample: the claim says any error from execute_one
leaves the whole state unchanged. Executing 6A22 (LD VA, 0x22) stored at
pc = 4094 returns MemoryOutOfBounds, yet the returned state has VA
changed from 0 to 0x22 and pc advanced from 4094 to 4096: the
effects of the instruction were partially applied before the error. -/
theorem c9_error_not_atomic :
    (ldxbEndCpu.exec_routine 0).errOf = some CpuError.MemoryOutOfBounds ∧
    ldxbEndCpu.reg 10 = 0 ∧ ldxbEndCpu.pc = 4094 ∧
    (ldxbEndCpu.exec_routine 0).post.map (fun c => (c.reg 10, c.pc)) =
      some (0x22, 4096) :=
  ⟨rfl, rfl, rfl, rfl⟩

/-- Claim C9, amended: whenever exec_routine returns UnknownOpcode or
EmptyStack the state is exactly the pre-call state; a StackOverflow
state differs from it only in the incremented stack pointer; and a
MemoryOutOfBounds state has its pc advanced to at least 4096 (with the
earlier effects of the instruction applied). -/
theorem c9_amended_error_effects (c : Cpu) (rnd : Nat) (e : CpuError) (c' : Cpu)
    (h : c.exec_routine rnd = .err e c') :
    (e = CpuError.UnknownOpcode → c' = c) ∧
    (e = CpuError.EmptyStack → c' = c) ∧
    (e = CpuError.StackOverflow → c' = { c with sp := c.sp + 1 }) ∧
    (e = CpuError.MemoryOutOfBounds → 4096 ≤ c'.pc) := by
  unfold Cpu.exec_routine at h
  split at h
  · exact exec_inst_err_spec _ _ _ _ _ h
  all_goals cases h

/-- Witness for the amended C9 theorem: RET on an empty stack returns
EmptyStack with the state unchanged. -/
theorem c9_amended_error_effects_witness :
    (CpuError.EmptyStack = CpuError.UnknownOpcode → emptyStackCpu = emptyStackCpu) ∧
    (CpuError.EmptyStack = CpuError.EmptyStack → emptyStackCpu = emptyStackCpu) ∧
    (CpuError.EmptyStack = CpuError.StackOverflow →
      emptyStackCpu = { emptyStackCpu with sp := emptyStackCpu.sp + 1 }) ∧
    (CpuError.EmptyStack = CpuError.MemoryOutOfBounds → 4096 ≤ emptyStackCpu.pc) :=
  c9_amended_error_effects emptyStackCpu 0 CpuError.EmptyStack emptyStackCpu rfl

/-- Claim C10: the claim says 7xkk wraps the sum modulo 256 and never
panics. The source uses a plain checked u8 add (reg[x] += kk), so
executing 7001 with V0 = 255 aborts a debug build on add overflow
instead of wrapping to 0. -/
theorem c10_addxb_overflow_panics :
    addxbCpu.reg 0 = 255 ∧ addxbCpu.exec_routine 0 = ExecResult.panicked :=
  ⟨rfl, rfl⟩

end Chip8
